import Mathlib

/-!
# Verification of the litra-lx HID driver (`src/driver.ts`)

Shallow embedding of the driver's data model and command operations.

Modelling conventions:

* JavaScript numbers that flow into the validation logic are embedded as `ℚ`
  (so that non-integer inputs such as 50.5 are expressible);
  `Number.isInteger q` is embedded as `q.den = 1`.
* Byte frames are `List ℕ`.
* A setter (`setTemperatureInKelvin`, `setBrightnessInLumen`,
  `setBrightnessPercentage`) is embedded as a function returning an `Outcome`:
  the list of frames written to the HID handle together with an optional
  error (JavaScript `throw` of a string).  The source throws before any
  `device.hid.write` call, which the embedding mirrors branch by branch.
* Operations that also read from the device (`isOn`, `toggle`,
  `getTemperatureInKelvin`) are embedded as functions of the response frame
  the device would deliver to `readSync`, returning the ordered trace of
  HID events (writes and reads) the call performs.
* The helper functions `integerToBytes`, `multiplesWithinRange`, `padRight`
  and `percentageWithinRange` live in the repository's `./utils` module,
  which is not part of the provided sources; they are modelled from the
  spec's description of them (marked `Modelled from the spec:` below).
-/

set_option maxRecDepth 100000

inductive DeviceType where
  | litraGlow
  | litraBeam
deriving DecidableEq

def VENDOR_ID : ℕ := 0x046d

def PRODUCT_IDS : List ℕ := [0xc900, 0xc901, 0xb901, 0xc903]

def USAGE_PAGE : ℕ := 0xff43

def MINIMUM_BRIGHTNESS_IN_LUMEN_BY_DEVICE_TYPE : DeviceType → ℕ
  | .litraGlow => 20
  | .litraBeam => 30

def MAXIMUM_BRIGHTNESS_IN_LUMEN_BY_DEVICE_TYPE : DeviceType → ℕ
  | .litraGlow => 250
  | .litraBeam => 400

/-- Modelled from the spec: `multiplesWithinRange` (imported from the
repository's `./utils` module, which is absent from the provided sources)
produces, "given a step, inclusive lower bound, inclusive upper bound,
the ascending sequence of all integers in range that are exact multiples
of step". -/
def multiplesWithinRange (step low high : ℕ) : List ℕ :=
  (List.range (high + 1)).filter (fun n => low ≤ n && n % step == 0)

def MULTIPLES_OF_100_BETWEEN_2700_AND_6500 : List ℕ :=
  multiplesWithinRange 100 2700 6500

def ALLOWED_TEMPERATURES_IN_KELVIN_BY_DEVICE_TYPE : DeviceType → List ℕ :=
  fun _ => MULTIPLES_OF_100_BETWEEN_2700_AND_6500

def NAME_BY_DEVICE_TYPE : DeviceType → String
  | .litraGlow => "Logitech Litra Glow"
  | .litraBeam => "Logitech Litra Beam"

/-- Modelled from the spec: `padRight` (from the absent `./utils` module)
right-pads a byte list with a fill value up to a target length; every frame
in the driver is "right-padded with zero bytes to 20". -/
def padRight (xs : List ℕ) (len : ℕ) (fill : ℕ) : List ℕ :=
  xs ++ List.replicate (len - xs.length) fill

/-- Modelled from the spec: `integerToBytes` (from the absent `./utils`
module) converts "a non-negative integer into its two-byte big-endian
representation (high byte = integer div 256, low byte = integer mod 256)". -/
def integerToBytes (n : ℕ) : List ℕ := [n / 256, n % 256]

/-- Rounding to the nearest integer, ties away from zero — the rounding rule
the spec pins for the percentage scaling. -/
def roundHalfAwayFromZero (q : ℚ) : ℤ :=
  if 0 ≤ q then ⌊q + 1 / 2⌋ else ⌈q - 1 / 2⌉

/-- Modelled from the spec: `percentageWithinRange` (from the absent
`./utils` module) computes `round(min + (percentage/100) * (max - min))`,
"nearest integer, ties away from zero". -/
def percentageWithinRange (p : ℚ) (startRange endRange : ℕ) : ℤ :=
  roundHalfAwayFromZero ((startRange : ℚ) + p / 100 * ((endRange : ℚ) - (startRange : ℚ)))

/-- The frames a setter wrote to the HID handle, and the error it threw
(if any).  A throw aborts the call, so a branch that throws contributes
exactly the writes performed before the throw. -/
structure Outcome where
  writes : List (List ℕ)
  error : Option String
deriving DecidableEq

/-- One interaction with the HID handle: a 20-byte frame written via
`device.hid.write`, or a response frame obtained from `device.hid.readSync`. -/
inductive HidEvent where
  | write (frame : List ℕ)
  | read (response : List ℕ)
deriving DecidableEq

def getMinimumBrightnessInLumenForDevice (d : DeviceType) : ℕ :=
  MINIMUM_BRIGHTNESS_IN_LUMEN_BY_DEVICE_TYPE d

def getMaximumBrightnessInLumenForDevice (d : DeviceType) : ℕ :=
  MAXIMUM_BRIGHTNESS_IN_LUMEN_BY_DEVICE_TYPE d

def getMinimumTemperatureInKelvinForDevice (d : DeviceType) : ℕ :=
  (ALLOWED_TEMPERATURES_IN_KELVIN_BY_DEVICE_TYPE d).getD 0 0

def getMaximumTemperatureInKelvinForDevice (d : DeviceType) : ℕ :=
  let allowedTemperatures := ALLOWED_TEMPERATURES_IN_KELVIN_BY_DEVICE_TYPE d
  allowedTemperatures.getD (allowedTemperatures.length - 1) 0

def getAllowedTemperaturesInKelvinForDevice (d : DeviceType) : List ℕ :=
  ALLOWED_TEMPERATURES_IN_KELVIN_BY_DEVICE_TYPE d

def getNameForDevice (d : DeviceType) : String :=
  NAME_BY_DEVICE_TYPE d

def turnOnFrame : List ℕ := padRight [0x11, 0xff, 0x06, 0x1c, 0x01] 20 0x00

def turnOffFrame : List ℕ := padRight [0x11, 0xff, 0x06, 0x1c, 0x00] 20 0x00

def queryPowerFrame : List ℕ := padRight [0x11, 0xff, 0x06, 0x01] 20 0x00

def queryTemperatureFrame : List ℕ := padRight [0x11, 0xff, 0x06, 0x81] 20 0x00

/-- `turnOn` writes one fixed frame (the device argument only supplies the
handle, so the embedding is the event trace). -/
def turnOn : List HidEvent := [.write turnOnFrame]

/-- `turnOff` writes one fixed frame. -/
def turnOff : List HidEvent := [.write turnOffFrame]

/-- The decode of `isOn`: JavaScript `data[4] === 1` (an out-of-range index
reads `undefined`, which is not `=== 1`, exactly as the default 0 is not 1). -/
def isOn (response : List ℕ) : Bool := response.getD 4 0 == 1

/-- The event trace of `isOn`: one query-power write, one blocking read. -/
def isOnEvents (response : List ℕ) : List HidEvent :=
  [.write queryPowerFrame, .read response]

/-- `toggle`, as a function of the response frame `isOn`'s read delivers:
the `isOn` write/read pair, then `turnOff` if the device reported on,
else `turnOn`. -/
def toggle (response : List ℕ) : List HidEvent :=
  isOnEvents response ++ (if isOn response then turnOff else turnOn)

/-- The decode of `getTemperatureInKelvin`: `data[4] * 256 + data[5]`. -/
def getTemperatureValue (response : List ℕ) : ℕ :=
  response.getD 4 0 * 256 + response.getD 5 0

/-- `getTemperatureInKelvin`: one query write, one read, and the decoded
Kelvin value. -/
def getTemperatureInKelvin (response : List ℕ) : List HidEvent × ℕ :=
  ([.write queryTemperatureFrame, .read response], getTemperatureValue response)

def temperatureRangeErrorMessage (d : DeviceType) : String :=
  "Provided temperature must be a multiple of 100 between " ++
    toString (getMinimumTemperatureInKelvinForDevice d) ++ " and " ++
    toString (getMaximumTemperatureInKelvinForDevice d) ++ " for this device"

def setTemperatureInKelvin (d : DeviceType) (temperatureInKelvin : ℚ) : Outcome :=
  if temperatureInKelvin.den ≠ 1 then
    { writes := [], error := some "Provided temperature must be an integer" }
  else if ¬ (getAllowedTemperaturesInKelvinForDevice d).any
      (fun k => (k : ℚ) == temperatureInKelvin) then
    { writes := [], error := some (temperatureRangeErrorMessage d) }
  else
    { writes :=
        [padRight ([0x11, 0xff, 0x06, 0x9c] ++ integerToBytes temperatureInKelvin.num.toNat) 20 0x00],
      error := none }

def brightnessRangeErrorMessage (d : DeviceType) : String :=
  "Provided brightness must be between " ++
    toString (getMinimumBrightnessInLumenForDevice d) ++ " and " ++
    toString (getMaximumBrightnessInLumenForDevice d) ++ " for this device"

def setBrightnessInLumen (d : DeviceType) (brightnessInLumen : ℚ) : Outcome :=
  if brightnessInLumen.den ≠ 1 then
    { writes := [], error := some "Provided brightness must be an integer" }
  else if brightnessInLumen < (getMinimumBrightnessInLumenForDevice d : ℚ) ∨
      (getMaximumBrightnessInLumenForDevice d : ℚ) < brightnessInLumen then
    { writes := [], error := some (brightnessRangeErrorMessage d) }
  else
    { writes :=
        [padRight ([0x11, 0xff, 0x06, 0x4c] ++ integerToBytes brightnessInLumen.num.toNat) 20 0x00],
      error := none }

/-- The lumen value `setBrightnessPercentage` delegates: the source's
ternary `brightnessPercentage === 0 ? minimumBrightness
: percentageWithinRange(brightnessPercentage, minimumBrightness, maximumBrightness)`. -/
def brightnessPercentageLumen (d : DeviceType) (brightnessPercentage : ℚ) : ℤ :=
  if brightnessPercentage == 0 then (getMinimumBrightnessInLumenForDevice d : ℤ)
  else percentageWithinRange brightnessPercentage
    (getMinimumBrightnessInLumenForDevice d) (getMaximumBrightnessInLumenForDevice d)

def setBrightnessPercentage (d : DeviceType) (brightnessPercentage : ℚ) : Outcome :=
  if brightnessPercentage < 0 ∨ 100 < brightnessPercentage then
    { writes := [], error := some "Percentage must be between 0 and 100" }
  else
    setBrightnessInLumen d ((brightnessPercentageLumen d brightnessPercentage : ℤ) : ℚ)

def getDeviceTypeByProductId (productId : ℕ) : Except String DeviceType :=
  if productId = PRODUCT_IDS.getD 0 0 then .ok .litraGlow
  else if productId = PRODUCT_IDS.getD 1 0 ∨ productId = PRODUCT_IDS.getD 2 0 ∨
      productId = PRODUCT_IDS.getD 3 0 then .ok .litraBeam
  else .error "Unknown device type"

/-- 50.5 as a rational, in lowest terms (used as a concrete non-integer
input in witnesses). -/
def fiftyPointFive : ℚ := Rat.mk' 101 2 (by norm_num) (by norm_num)

/-! ## Helper lemmas -/

lemma MULTIPLES_eq :
    MULTIPLES_OF_100_BETWEEN_2700_AND_6500 =
      (List.range 39).map (fun i => 2700 + 100 * i) := by
  decide

lemma minBrightness_le_maxBrightness (d : DeviceType) :
    getMinimumBrightnessInLumenForDevice d ≤ getMaximumBrightnessInLumenForDevice d := by
  cases d <;> decide

/-! ## Claims -/

/-- C7: for every device variant, `getAllowedTemperaturesInKelvinForDevice`
returns exactly the 39 multiples of 100 from 2700 to 6500 inclusive, strictly
ascending with no duplicates; `getMinimumTemperatureInKelvinForDevice` returns
the first element (2700) and `getMaximumTemperatureInKelvinForDevice` the last
element (6500). -/
theorem allowed_temperatures_spec (d : DeviceType) :
    getAllowedTemperaturesInKelvinForDevice d = (List.range 39).map (fun i => 2700 + 100 * i) ∧
    (getAllowedTemperaturesInKelvinForDevice d).length = 39 ∧
    List.Sorted (· < ·) (getAllowedTemperaturesInKelvinForDevice d) ∧
    (getAllowedTemperaturesInKelvinForDevice d).Nodup ∧
    getMinimumTemperatureInKelvinForDevice d = (getAllowedTemperaturesInKelvinForDevice d).getD 0 0 ∧
    getMinimumTemperatureInKelvinForDevice d = 2700 ∧
    getMaximumTemperatureInKelvinForDevice d = 6500 := by
  have h : getAllowedTemperaturesInKelvinForDevice d =
      (List.range 39).map (fun i => 2700 + 100 * i) := by
    simp only [getAllowedTemperaturesInKelvinForDevice,
      ALLOWED_TEMPERATURES_IN_KELVIN_BY_DEVICE_TYPE, MULTIPLES_eq]
  refine ⟨h, ?_, ?_, ?_, rfl, ?_, ?_⟩
  · rw [h]; decide
  · rw [h]; decide
  · rw [h]; decide
  · simp only [getMinimumTemperatureInKelvinForDevice,
      ALLOWED_TEMPERATURES_IN_KELVIN_BY_DEVICE_TYPE, MULTIPLES_eq]
    decide
  · simp only [getMaximumTemperatureInKelvinForDevice,
      ALLOWED_TEMPERATURES_IN_KELVIN_BY_DEVICE_TYPE, MULTIPLES_eq]
    decide

/-- C5: `turnOn` writes exactly the 20-byte frame
`[0x11, 0xff, 0x06, 0x1c, 0x01]` right-padded with fifteen zero bytes, and
`turnOff` writes the same frame except that its 5th byte is `0x00`. -/
theorem power_frames_spec :
    turnOn = [HidEvent.write ([0x11, 0xff, 0x06, 0x1c, 0x01] ++ List.replicate 15 0x00)] ∧
    turnOnFrame = [0x11, 0xff, 0x06, 0x1c, 0x01] ++ List.replicate 15 0x00 ∧
    turnOnFrame.length = 20 ∧
    turnOff = [HidEvent.write ([0x11, 0xff, 0x06, 0x1c, 0x00] ++ List.replicate 15 0x00)] ∧
    turnOffFrame = [0x11, 0xff, 0x06, 0x1c, 0x00] ++ List.replicate 15 0x00 ∧
    turnOffFrame.length = 20 ∧
    turnOffFrame = turnOnFrame.set 4 0x00 := by
  decide

/-- C6: `toggle` performs exactly one power-query write, then one blocking
read, then exactly one further write: the turn-off frame if the response
reported the device on (byte at offset 4 equal to 1), the turn-on frame
otherwise — never both the on frame and the off frame in one call. -/
theorem toggle_spec (response : List ℕ) :
    toggle response =
      [HidEvent.write queryPowerFrame, HidEvent.read response,
        HidEvent.write (if response.getD 4 0 = 1 then turnOffFrame else turnOnFrame)] ∧
    ¬ (HidEvent.write turnOnFrame ∈ toggle response ∧
        HidEvent.write turnOffFrame ∈ toggle response) := by
  have hne : turnOnFrame ≠ turnOffFrame := by decide
  have hq1 : turnOnFrame ≠ queryPowerFrame := by decide
  have hq2 : turnOffFrame ≠ queryPowerFrame := by decide
  have htr : toggle response =
      [HidEvent.write queryPowerFrame, HidEvent.read response,
        HidEvent.write (if response.getD 4 0 = 1 then turnOffFrame else turnOnFrame)] := by
    by_cases h : response.getD 4 0 = 1
    · have hb : isOn response = true := by simp only [isOn]; rw [h]; rfl
      rw [if_pos h]
      simp [toggle, isOnEvents, turnOff, hb]
    · have hb : isOn response = false := by
        simp only [isOn]
        exact beq_eq_false_iff_ne.mpr h
      rw [if_neg h]
      simp [toggle, isOnEvents, turnOn, hb]
  refine ⟨htr, ?_⟩
  rintro ⟨hOn, hOff⟩
  rw [htr] at hOn hOff
  by_cases h : response.getD 4 0 = 1
  · rw [if_pos h] at hOn
    simp only [List.mem_cons, List.not_mem_nil, or_false, HidEvent.write.injEq,
      reduceCtorEq, false_or] at hOn
    rcases hOn with h' | h'
    · exact hq1 h'
    · exact hne h'
  · rw [if_neg h] at hOff
    simp only [List.mem_cons, List.not_mem_nil, or_false, HidEvent.write.injEq,
      reduceCtorEq, false_or] at hOff
    rcases hOff with h' | h'
    · exact hq2 h'
    · exact hne h'.symm

/-- C8: for every integer in [0, 65535], encoding with `integerToBytes`
(high byte = div 256, low byte = mod 256) and reassembling with the
response-decode convention of `getTemperatureInKelvin`
(`high * 256 + low` from response offsets 4 and 5) yields the integer back. -/
theorem integerToBytes_roundtrip (n : ℕ) (_hn : n ≤ 65535) (response : List ℕ)
    (h4 : response.getD 4 0 = (integerToBytes n).getD 0 0)
    (h5 : response.getD 5 0 = (integerToBytes n).getD 1 0) :
    (integerToBytes n).getD 0 0 * 256 + (integerToBytes n).getD 1 0 = n ∧
    getTemperatureValue response = n ∧
    (getTemperatureInKelvin response).2 = n := by
  have e0 : (integerToBytes n).getD 0 0 = n / 256 := rfl
  have e1 : (integerToBytes n).getD 1 0 = n % 256 := rfl
  refine ⟨?_, ?_, ?_⟩
  · rw [e0, e1]; omega
  · unfold getTemperatureValue; rw [h4, h5, e0, e1]; omega
  · show getTemperatureValue response = n
    unfold getTemperatureValue; rw [h4, h5, e0, e1]; omega

/-- Witness for C8 at n = 2700 (response bytes 10 and 140 at offsets 4, 5). -/
theorem integerToBytes_roundtrip_witness :
    (integerToBytes 2700).getD 0 0 * 256 + (integerToBytes 2700).getD 1 0 = 2700 ∧
    getTemperatureValue ([0x11, 0xff, 0x06, 0x00, 10, 140] ++ List.replicate 14 0) = 2700 ∧
    (getTemperatureInKelvin ([0x11, 0xff, 0x06, 0x00, 10, 140] ++ List.replicate 14 0)).2 = 2700 :=
  integerToBytes_roundtrip 2700 (by decide)
    ([0x11, 0xff, 0x06, 0x00, 10, 140] ++ List.replicate 14 0) (by decide) (by decide)

/-- C9: `getDeviceTypeByProductId` returns the Glow variant for product id
0xc900, the Beam variant for 0xc901, 0xb901 and 0xc903, and raises an
unrecognized-device error for every other product id. -/
theorem getDeviceTypeByProductId_spec (productId : ℕ) :
    (productId = 0xc900 → getDeviceTypeByProductId productId = Except.ok DeviceType.litraGlow) ∧
    ((productId = 0xc901 ∨ productId = 0xb901 ∨ productId = 0xc903) →
      getDeviceTypeByProductId productId = Except.ok DeviceType.litraBeam) ∧
    (productId ∉ PRODUCT_IDS →
      getDeviceTypeByProductId productId = Except.error "Unknown device type") := by
  refine ⟨?_, ?_, ?_⟩
  · intro h; subst h; rfl
  · intro h; rcases h with h | h | h <;> subst h <;> rfl
  · intro h
    simp only [PRODUCT_IDS, List.mem_cons, List.not_mem_nil, or_false, not_or] at h
    obtain ⟨h1, h2, h3, h4⟩ := h
    simp [getDeviceTypeByProductId, PRODUCT_IDS, List.getD, h1, h2, h3, h4]

/-- Witness for C9 at the four recognized product ids and one unrecognized
id (0x1234). -/
theorem getDeviceTypeByProductId_spec_witness :
    getDeviceTypeByProductId 0xc900 = Except.ok DeviceType.litraGlow ∧
    getDeviceTypeByProductId 0xc901 = Except.ok DeviceType.litraBeam ∧
    getDeviceTypeByProductId 0xb901 = Except.ok DeviceType.litraBeam ∧
    getDeviceTypeByProductId 0xc903 = Except.ok DeviceType.litraBeam ∧
    getDeviceTypeByProductId 0x1234 = Except.error "Unknown device type" :=
  ⟨(getDeviceTypeByProductId_spec 0xc900).1 rfl,
   (getDeviceTypeByProductId_spec 0xc901).2.1 (Or.inl rfl),
   (getDeviceTypeByProductId_spec 0xb901).2.1 (Or.inr (Or.inl rfl)),
   (getDeviceTypeByProductId_spec 0xc903).2.1 (Or.inr (Or.inr rfl)),
   (getDeviceTypeByProductId_spec 0x1234).2.2 (by decide)⟩

lemma getAllowed_eq (d : DeviceType) :
    getAllowedTemperaturesInKelvinForDevice d =
      (List.range 39).map (fun i => 2700 + 100 * i) := by
  simp only [getAllowedTemperaturesInKelvinForDevice,
    ALLOWED_TEMPERATURES_IN_KELVIN_BY_DEVICE_TYPE, MULTIPLES_eq]

/-- C2: `setTemperatureInKelvin` raises an error for non-integer inputs,
raises the range error for every integer not in the variant's
allowed-temperature set, and for every allowed temperature writes exactly one
20-byte frame with header `[0x11, 0xff, 0x06, 0x9c]` followed by the 2-byte
big-endian encoding of the temperature. -/
theorem setTemperatureInKelvin_spec (d : DeviceType) (t : ℚ) :
    (t.den ≠ 1 →
      setTemperatureInKelvin d t =
        { writes := [], error := some "Provided temperature must be an integer" }) ∧
    (t.den = 1 → (∀ k ∈ getAllowedTemperaturesInKelvinForDevice d, t ≠ (k : ℚ)) →
      setTemperatureInKelvin d t =
        { writes := [], error := some (temperatureRangeErrorMessage d) }) ∧
    (∀ k : ℕ, k ∈ getAllowedTemperaturesInKelvinForDevice d → t = (k : ℚ) →
      setTemperatureInKelvin d t =
        { writes := [0x11 :: 0xff :: 0x06 :: 0x9c :: k / 256 :: k % 256 :: List.replicate 14 0x00],
          error := none } ∧
      (0x11 :: 0xff :: 0x06 :: 0x9c :: k / 256 :: k % 256 :: List.replicate 14 0x00 : List ℕ).length = 20) := by
  refine ⟨?_, ?_, ?_⟩
  · intro h
    unfold setTemperatureInKelvin
    rw [if_pos h]
  · intro hden hall
    have hany : ((getAllowedTemperaturesInKelvinForDevice d).any fun k => (k : ℚ) == t) = false := by
      rw [List.any_eq_false]
      intro k hk
      simp only [beq_iff_eq]
      exact fun hkt => hall k hk hkt.symm
    unfold setTemperatureInKelvin
    rw [if_neg (fun hc => hc hden), if_pos (by simp [hany])]
  · intro k hk ht
    have hden : t.den = 1 := by rw [ht]; exact Rat.den_natCast k
    have hnum : t.num.toNat = k := by rw [ht, Rat.num_natCast]; exact Int.toNat_natCast k
    have hany : ((getAllowedTemperaturesInKelvinForDevice d).any fun x => (x : ℚ) == t) = true :=
      List.any_eq_true.mpr ⟨k, hk, by rw [ht]; exact beq_self_eq_true _⟩
    constructor
    · unfold setTemperatureInKelvin
      rw [if_neg (fun hc => hc hden), if_neg (by simp [hany]), hnum]
      simp [padRight, integerToBytes]
    · simp

/-- Witness for C2 on the Glow variant: t = 2700 succeeds with the exact
frame, t = 2750 and t = 6600 fail with the range error, t = 50.5 fails the
integer check. -/
theorem setTemperatureInKelvin_spec_witness :
    (setTemperatureInKelvin .litraGlow 2700 =
        { writes := [0x11 :: 0xff :: 0x06 :: 0x9c :: 10 :: 140 :: List.replicate 14 0x00],
          error := none } ∧
      (0x11 :: 0xff :: 0x06 :: 0x9c :: 10 :: 140 :: List.replicate 14 0x00 : List ℕ).length = 20) ∧
    setTemperatureInKelvin .litraGlow 2750 =
      { writes := [], error := some (temperatureRangeErrorMessage .litraGlow) } ∧
    setTemperatureInKelvin .litraGlow 6600 =
      { writes := [], error := some (temperatureRangeErrorMessage .litraGlow) } ∧
    setTemperatureInKelvin .litraGlow fiftyPointFive =
      { writes := [], error := some "Provided temperature must be an integer" } :=
  ⟨(setTemperatureInKelvin_spec .litraGlow 2700).2.2 2700
      (by rw [getAllowed_eq]; decide) (by norm_num),
   (setTemperatureInKelvin_spec .litraGlow 2750).2.1 (by decide)
      (by rw [getAllowed_eq]; decide),
   (setTemperatureInKelvin_spec .litraGlow 6600).2.1 (by decide)
      (by rw [getAllowed_eq]; decide),
   (setTemperatureInKelvin_spec .litraGlow fiftyPointFive).1 (by decide)⟩

/-- C3: `setBrightnessInLumen` raises an error for every non-integer input
and for every integer strictly below the variant minimum or strictly above
the variant maximum, and succeeds — writing one frame with header
`[0x11, 0xff, 0x06, 0x4c]` and the 2-byte encoding of the value — for every
integer between the minimum and the maximum inclusive. -/
theorem setBrightnessInLumen_spec (d : DeviceType) (b : ℚ) :
    (b.den ≠ 1 →
      setBrightnessInLumen d b =
        { writes := [], error := some "Provided brightness must be an integer" }) ∧
    (b.den = 1 →
      (b < (getMinimumBrightnessInLumenForDevice d : ℚ) ∨
        (getMaximumBrightnessInLumenForDevice d : ℚ) < b) →
      setBrightnessInLumen d b =
        { writes := [], error := some (brightnessRangeErrorMessage d) }) ∧
    (∀ k : ℕ, b = (k : ℚ) → getMinimumBrightnessInLumenForDevice d ≤ k →
      k ≤ getMaximumBrightnessInLumenForDevice d →
      setBrightnessInLumen d b =
        { writes := [0x11 :: 0xff :: 0x06 :: 0x4c :: k / 256 :: k % 256 :: List.replicate 14 0x00],
          error := none } ∧
      (0x11 :: 0xff :: 0x06 :: 0x4c :: k / 256 :: k % 256 :: List.replicate 14 0x00 : List ℕ).length = 20) := by
  refine ⟨?_, ?_, ?_⟩
  · intro h
    unfold setBrightnessInLumen
    rw [if_pos h]
  · intro hden hout
    unfold setBrightnessInLumen
    rw [if_neg (fun hc => hc hden), if_pos hout]
  · intro k hb hmin hmax
    have hden : b.den = 1 := by rw [hb]; exact Rat.den_natCast k
    have hnum : b.num.toNat = k := by rw [hb, Rat.num_natCast]; exact Int.toNat_natCast k
    have hlo : (getMinimumBrightnessInLumenForDevice d : ℚ) ≤ b := by
      rw [hb]; exact_mod_cast hmin
    have hhi : b ≤ (getMaximumBrightnessInLumenForDevice d : ℚ) := by
      rw [hb]; exact_mod_cast hmax
    constructor
    · unfold setBrightnessInLumen
      rw [if_neg (fun hc => hc hden),
        if_neg (by push_neg; exact ⟨hlo, hhi⟩), hnum]
      simp [padRight, integerToBytes]
    · simp

/-- Witness for C3 on the Glow variant (min 20, max 250): succeeds exactly at
20 and at 250, fails at -1, at 251 and at the non-integer 50.5. -/
theorem setBrightnessInLumen_spec_witness :
    (setBrightnessInLumen .litraGlow 20 =
        { writes := [0x11 :: 0xff :: 0x06 :: 0x4c :: 0 :: 20 :: List.replicate 14 0x00],
          error := none }) ∧
    (setBrightnessInLumen .litraGlow 250 =
        { writes := [0x11 :: 0xff :: 0x06 :: 0x4c :: 0 :: 250 :: List.replicate 14 0x00],
          error := none }) ∧
    setBrightnessInLumen .litraGlow (-1) =
      { writes := [], error := some (brightnessRangeErrorMessage .litraGlow) } ∧
    setBrightnessInLumen .litraGlow 251 =
      { writes := [], error := some (brightnessRangeErrorMessage .litraGlow) } ∧
    setBrightnessInLumen .litraGlow fiftyPointFive =
      { writes := [], error := some "Provided brightness must be an integer" } :=
  ⟨((setBrightnessInLumen_spec .litraGlow 20).2.2 20 (by norm_num) (by decide) (by decide)).1,
   ((setBrightnessInLumen_spec .litraGlow 250).2.2 250 (by norm_num) (by decide) (by decide)).1,
   (setBrightnessInLumen_spec .litraGlow (-1)).2.1 (by decide) (Or.inl (by decide)),
   (setBrightnessInLumen_spec .litraGlow 251).2.1 (by decide) (Or.inr (by decide)),
   (setBrightnessInLumen_spec .litraGlow fiftyPointFive).1 (by decide)⟩

/-- C4: for every setter and every input, if the call raises a validation
error then zero frames have been written to the device handle. -/
theorem validation_error_no_write (d : DeviceType) (x : ℚ) :
    ((setTemperatureInKelvin d x).error.isSome → (setTemperatureInKelvin d x).writes = []) ∧
    ((setBrightnessInLumen d x).error.isSome → (setBrightnessInLumen d x).writes = []) ∧
    ((setBrightnessPercentage d x).error.isSome → (setBrightnessPercentage d x).writes = []) := by
  refine ⟨?_, ?_, ?_⟩
  · unfold setTemperatureInKelvin
    split_ifs <;> simp
  · unfold setBrightnessInLumen
    split_ifs <;> simp
  · unfold setBrightnessPercentage setBrightnessInLumen
    split_ifs <;> simp

/-- Witness for C4: a failing input for each of the three setters leaves the
write trace empty. -/
theorem validation_error_no_write_witness :
    (setTemperatureInKelvin .litraGlow fiftyPointFive).writes = [] ∧
    (setBrightnessInLumen .litraGlow (-1)).writes = [] ∧
    (setBrightnessPercentage .litraGlow 101).writes = [] :=
  ⟨(validation_error_no_write .litraGlow fiftyPointFive).1 (by decide),
   (validation_error_no_write .litraGlow (-1)).2.1 (by decide),
   (validation_error_no_write .litraGlow 101).2.2 (by decide)⟩

lemma percentageWithinRange_bounds (low high : ℕ) (hlh : low ≤ high) (p : ℚ)
    (h0 : 0 ≤ p) (h1 : p ≤ 100) :
    (low : ℤ) ≤ percentageWithinRange p low high ∧
      percentageWithinRange p low high ≤ (high : ℤ) := by
  have hlh' : (low : ℚ) ≤ (high : ℚ) := by exact_mod_cast hlh
  have hq0 : (low : ℚ) ≤ (low : ℚ) + p / 100 * ((high : ℚ) - (low : ℚ)) := by
    have hm : 0 ≤ p / 100 * ((high : ℚ) - (low : ℚ)) :=
      mul_nonneg (by positivity) (sub_nonneg.mpr hlh')
    linarith
  have hq1 : (low : ℚ) + p / 100 * ((high : ℚ) - (low : ℚ)) ≤ (high : ℚ) := by
    have h2 : p / 100 ≤ 1 := (div_le_one (by norm_num)).mpr h1
    nlinarith [mul_nonneg (sub_nonneg.mpr h2) (sub_nonneg.mpr hlh')]
  have hpos : 0 ≤ (low : ℚ) + p / 100 * ((high : ℚ) - (low : ℚ)) :=
    le_trans (by positivity) hq0
  unfold percentageWithinRange roundHalfAwayFromZero
  rw [if_pos hpos]
  constructor
  · rw [Int.le_floor]
    push_cast
    linarith
  · have hf : ⌊(low : ℚ) + p / 100 * ((high : ℚ) - (low : ℚ)) + 1 / 2⌋ < (high : ℤ) + 1 := by
      rw [Int.floor_lt]
      push_cast
      linarith
    omega

lemma percentageWithinRange_at_hundred (low high : ℕ) :
    percentageWithinRange 100 low high = (high : ℤ) := by
  unfold percentageWithinRange roundHalfAwayFromZero
  have he : (low : ℚ) + (100 : ℚ) / 100 * ((high : ℚ) - (low : ℚ)) = (high : ℚ) := by
    ring
  rw [he, if_pos (by positivity)]
  refine Int.floor_eq_iff.mpr ⟨?_, ?_⟩
  · push_cast
    linarith
  · push_cast
    linarith

/-- C1: for every variant and every percentage in [0, 100],
`setBrightnessPercentage` delegates to `setBrightnessInLumen` with a lumen
value in `[min, max]`; percentage 0 delegates exactly the minimum (not the
linear-scaled value) and percentage 100 exactly the maximum; a percentage
outside [0, 100] raises an error without delegating (and hence before any
write). -/
theorem setBrightnessPercentage_spec (d : DeviceType) (p : ℚ) :
    (0 ≤ p → p ≤ 100 →
      setBrightnessPercentage d p =
        setBrightnessInLumen d ((brightnessPercentageLumen d p : ℤ) : ℚ) ∧
      (getMinimumBrightnessInLumenForDevice d : ℤ) ≤ brightnessPercentageLumen d p ∧
      brightnessPercentageLumen d p ≤ (getMaximumBrightnessInLumenForDevice d : ℤ) ∧
      (p = 0 → brightnessPercentageLumen d p = (getMinimumBrightnessInLumenForDevice d : ℤ)) ∧
      (p = 100 → brightnessPercentageLumen d p = (getMaximumBrightnessInLumenForDevice d : ℤ))) ∧
    ((p < 0 ∨ 100 < p) →
      setBrightnessPercentage d p =
        { writes := [], error := some "Percentage must be between 0 and 100" }) := by
  constructor
  · intro h0 h1
    have hnotguard : ¬ (p < 0 ∨ 100 < p) := by
      push_neg
      exact ⟨h0, h1⟩
    refine ⟨?_, ?_, ?_, ?_, ?_⟩
    · unfold setBrightnessPercentage
      rw [if_neg hnotguard]
    · by_cases hz : p = 0
      · subst hz
        unfold brightnessPercentageLumen
        rw [if_pos (beq_self_eq_true (0 : ℚ))]
      · unfold brightnessPercentageLumen
        rw [if_neg (by simp only [beq_iff_eq]; exact hz)]
        exact (percentageWithinRange_bounds _ _ (minBrightness_le_maxBrightness d) p h0 h1).1
    · by_cases hz : p = 0
      · subst hz
        unfold brightnessPercentageLumen
        rw [if_pos (beq_self_eq_true (0 : ℚ))]
        exact_mod_cast minBrightness_le_maxBrightness d
      · unfold brightnessPercentageLumen
        rw [if_neg (by simp only [beq_iff_eq]; exact hz)]
        exact (percentageWithinRange_bounds _ _ (minBrightness_le_maxBrightness d) p h0 h1).2
    · intro hz
      subst hz
      unfold brightnessPercentageLumen
      rw [if_pos (beq_self_eq_true (0 : ℚ))]
    · intro hh
      subst hh
      unfold brightnessPercentageLumen
      rw [if_neg (by simp only [beq_iff_eq]; norm_num)]
      exact percentageWithinRange_at_hundred _ _
  · intro hguard
    unfold setBrightnessPercentage
    rw [if_pos hguard]

/-- Witness for C1 on the Glow variant (min 20, max 250): bounds at p = 50,
exact minimum at p = 0, exact maximum at p = 100, error at p = 101. -/
theorem setBrightnessPercentage_spec_witness :
    ((20 : ℤ) ≤ brightnessPercentageLumen .litraGlow 50 ∧
      brightnessPercentageLumen .litraGlow 50 ≤ (250 : ℤ)) ∧
    brightnessPercentageLumen .litraGlow 0 = (20 : ℤ) ∧
    brightnessPercentageLumen .litraGlow 100 = (250 : ℤ) ∧
    setBrightnessPercentage .litraGlow 101 =
      { writes := [], error := some "Percentage must be between 0 and 100" } :=
  ⟨⟨((setBrightnessPercentage_spec .litraGlow 50).1 (by norm_num) (by norm_num)).2.1,
    ((setBrightnessPercentage_spec .litraGlow 50).1 (by norm_num) (by norm_num)).2.2.1⟩,
   ((setBrightnessPercentage_spec .litraGlow 0).1 (by norm_num) (by norm_num)).2.2.2.1 rfl,
   ((setBrightnessPercentage_spec .litraGlow 100).1 (by norm_num) (by norm_num)).2.2.2.2 rfl,
   (setBrightnessPercentage_spec .litraGlow 101).2 (by norm_num)⟩

/-- C10: `setBrightnessPercentage` does not require the percentage to be an
integer: for every non-integer percentage strictly between 0 and 100 the
[0, 100] guard passes, no percentage-range error is raised, and the call is
decided solely by `setBrightnessInLumen` on the scaled-and-rounded lumen
value. -/
theorem setBrightnessPercentage_nonInteger_spec (d : DeviceType) (p : ℚ)
    (h0 : 0 < p) (h1 : p < 100) (_hden : p.den ≠ 1) :
    setBrightnessPercentage d p =
      setBrightnessInLumen d
        ((percentageWithinRange p (getMinimumBrightnessInLumenForDevice d)
            (getMaximumBrightnessInLumenForDevice d) : ℤ) : ℚ) ∧
    (setBrightnessPercentage d p).error ≠ some "Percentage must be between 0 and 100" := by
  have hmsg : brightnessRangeErrorMessage d ≠ "Percentage must be between 0 and 100" := by
    cases d <;> decide
  have heq : setBrightnessPercentage d p =
      setBrightnessInLumen d
        ((percentageWithinRange p (getMinimumBrightnessInLumenForDevice d)
            (getMaximumBrightnessInLumenForDevice d) : ℤ) : ℚ) := by
    unfold setBrightnessPercentage
    rw [if_neg (by push_neg; exact ⟨le_of_lt h0, le_of_lt h1⟩)]
    unfold brightnessPercentageLumen
    rw [if_neg (by simp only [beq_iff_eq]; exact h0.ne')]
  refine ⟨heq, ?_⟩
  rw [heq]
  unfold setBrightnessInLumen
  rw [if_neg (fun hc => hc (Rat.den_intCast _))]
  split_ifs with hr
  · exact fun e => hmsg (Option.some.inj e)
  · exact fun e => Option.noConfusion e

/-- Witness for C10 at the non-integer percentage 50.5 on the Glow variant. -/
theorem setBrightnessPercentage_nonInteger_spec_witness :
    setBrightnessPercentage .litraGlow fiftyPointFive =
      setBrightnessInLumen .litraGlow
        ((percentageWithinRange fiftyPointFive 20 250 : ℤ) : ℚ) ∧
    (setBrightnessPercentage .litraGlow fiftyPointFive).error ≠
      some "Percentage must be between 0 and 100" :=
  setBrightnessPercentage_nonInteger_spec .litraGlow fiftyPointFive
    (by decide) (by decide) (by decide)
